import Mathlib

/-!
Shallow embedding of the PulseX Medical API backend (src/backend/main.py).

The embedding models the request-handling and file-lifecycle contract of the
two upload endpoints, the health endpoint and the startup directory creation.
Filesystem state is explicit: an association list from path (relative to the
directory of the source file, `BASE_DIR`) to file bytes. Nondeterministic
inputs of the Python code are parameters: the generated uuid (`file_id`), the
current datetime, the gateway outcome, and injected write/copy failures that
model the exception paths of the `try` blocks.
-/

set_option autoImplicit false

namespace PulseX

/-- File content: one natural number per byte. -/
abbrev Bytes := List Nat

/-- Filesystem state: association list from path to file bytes. -/
abbrev FS := List (String × Bytes)

/-- Model of `open(p, "wb")` followed by writing `data`: creates or truncates
the file at `p`. -/
def fsWrite (fs : FS) (p : String) (data : Bytes) : FS :=
  (p, data) :: fs.filter (fun e => e.1 != p)

/-- Model of `Path.unlink`. -/
def fsErase (fs : FS) (p : String) : FS :=
  fs.filter (fun e => e.1 != p)

/-- Model of `Path.exists()`. -/
def fsExists (fs : FS) (p : String) : Bool :=
  (List.lookup p fs).isSome

/-- Split a character list on the path separator. -/
def splitOnSlash : List Char → List (List Char)
  | [] => [[]]
  | a :: rest =>
    let r := splitOnSlash rest
    if a = '/' then [] :: r
    else
      match r with
      | [] => [[a]]
      | h :: t => (a :: h) :: t

/-- Model of `pathlib.Path(s).name`: the last nonempty path component. -/
def pyPathName (s : String) : String :=
  String.mk (((splitOnSlash s.toList).filter (fun l => !l.isEmpty)).getLastD [])

/-- Model of `str.rfind(c)`: the largest index of `c`, or `-1` when absent. -/
def pyRfind (c : Char) : List Char → Nat → Int
  | [], _ => -1
  | a :: rest, i =>
    let r := pyRfind c rest (i + 1)
    if r ≠ -1 then r else if a = c then (i : Int) else -1

/-- Model of `pathlib.Path(s).suffix`: the extension of the final component,
including the dot; empty when the last dot is at position 0 or at the end. -/
def pySuffix (s : String) : String :=
  let cs := (pyPathName s).toList
  let i := pyRfind '.' cs 0
  if 0 < i ∧ i < (cs.length : Int) - 1 then String.mk (cs.drop i.toNat) else ""

/-- Model of `str.lower()` on ASCII text. -/
def pyLower (s : String) : String :=
  String.mk (s.toList.map Char.toLower)

/-- `Path(filename).suffix.lower()` as used by both handlers. -/
def pyExt (s : String) : String :=
  pyLower (pySuffix s)

/-- Model of `str.startswith(pre)`. -/
def pyStartswith (pre s : String) : Bool :=
  List.isPrefixOf pre.toList s.toList

/-- Opaque output of the external classification capability. -/
structure AnalysisResult where
  payload : String
  deriving DecidableEq, Repr

/-- The classification gateway: `XRayService.analyze_xray(bytes, filename)`,
either a result or a raised exception message. -/
abbrev Gateway := Bytes → String → Except String AnalysisResult

/-- An incoming multipart upload: declared filename, declared content type
(either may be absent) and the full body bytes. -/
structure UploadRequest where
  filename : Option String
  content_type : Option String
  content : Bytes
  deriving DecidableEq, Repr

/-- What a handler invocation produces at the transport layer: a 200 body, an
`HTTPException` with status and detail, or an exception that escaped the
handler unhandled. -/
inductive Outcome (α : Type) where
  | ok (body : α)
  | httpError (status : Nat) (detail : String)
  | unhandled (err : String)
  deriving DecidableEq, Repr

/-- Exception message for `None.startswith(...)`. -/
def attrErrNone : String :=
  "AttributeError: NoneType object has no attribute startswith"

/-- Exception message for `Path(None)`. -/
def typeErrNone : String :=
  "TypeError: expected str, bytes or os.PathLike object, not NoneType"

/-- Staging path `XRAY_TEMP_DIR / (file_id ++ file_ext)`, relative to
`BASE_DIR`. -/
def xrayTempPath (file_id ext : String) : String :=
  "uploads/xray_temp/" ++ file_id ++ ext

/-- Result of one `analyze_xray` invocation: transport outcome, final
filesystem, the staging write that happened (path and bytes), and the
arguments the gateway was invoked with. -/
structure XrayRun where
  outcome : Outcome AnalysisResult
  fs : FS
  staged : Option (String × Bytes)
  gatewayCall : Option (Bytes × String)
  deriving DecidableEq, Repr

/-- Handler `POST /api/xray/analyze`. `writeFail = some (err, prefx)` injects a
failure of the staging write after the bytes `prefx` reached the disk,
modelling the exception path of the `try` block; `writeFail = none` lets the
write succeed and the gateway decide the rest. -/
def analyze_xray (svc : Option Gateway) (file_id : String) (req : UploadRequest)
    (writeFail : Option (String × Bytes)) (fs : FS) : XrayRun :=
  match svc with
  | none =>
    { outcome := .httpError 503 "X-ray AI not initialized", fs := fs,
      staged := none, gatewayCall := none }
  | some g =>
    match req.content_type with
    | none =>
      { outcome := .unhandled attrErrNone, fs := fs,
        staged := none, gatewayCall := none }
    | some ct =>
      if ¬ (pyStartswith "image/" ct = true) then
        { outcome := .httpError 400 "Invalid file type", fs := fs,
          staged := none, gatewayCall := none }
      else
        match req.filename with
        | none =>
          { outcome := .unhandled typeErrNone, fs := fs,
            staged := none, gatewayCall := none }
        | some name =>
          let file_ext := pyExt name
          let temp_path := xrayTempPath file_id file_ext
          let image_bytes := req.content
          match writeFail with
          | some (err, prefx) =>
            let fs1 := fsWrite fs temp_path prefx
            let fs2 := if fsExists fs1 temp_path then fsErase fs1 temp_path else fs1
            { outcome := .httpError 500 ("Analysis Error: " ++ err), fs := fs2,
              staged := some (temp_path, prefx), gatewayCall := none }
          | none =>
            let fs1 := fsWrite fs temp_path image_bytes
            match g image_bytes name with
            | .ok result =>
              let fs2 := if fsExists fs1 temp_path then fsErase fs1 temp_path else fs1
              { outcome := .ok result, fs := fs2,
                staged := some (temp_path, image_bytes),
                gatewayCall := some (image_bytes, name) }
            | .error e =>
              let fs2 := if fsExists fs1 temp_path then fsErase fs1 temp_path else fs1
              { outcome := .httpError 500 ("Analysis Error: " ++ e), fs := fs2,
                staged := some (temp_path, image_bytes),
                gatewayCall := some (image_bytes, name) }

/-- The allow-set of the archival endpoint. -/
def allowed_extensions : List String :=
  [".png", ".jpg", ".jpeg", ".pdf"]

/-- The wall-clock datetime fed to `datetime.now()`. -/
structure DateTime where
  year : Nat
  month : Nat
  day : Nat
  hour : Nat
  minute : Nat
  second : Nat
  deriving DecidableEq, Repr

/-- A datetime in the range where `strftime` zero-padding is as modelled. -/
abbrev ValidDT (t : DateTime) : Prop :=
  1000 ≤ t.year ∧ t.year ≤ 9999 ∧ 1 ≤ t.month ∧ t.month ≤ 12 ∧
  1 ≤ t.day ∧ t.day ≤ 31 ∧ t.hour ≤ 23 ∧ t.minute ≤ 59 ∧ t.second ≤ 59

/-- The decimal digit character for `n % 10`. -/
def digitChar (n : Nat) : Char :=
  Char.ofNat (48 + n % 10)

/-- Two-digit zero-padded rendering, as in `%m %d %H %M %S`. -/
def pad2 (n : Nat) : List Char :=
  [digitChar (n / 10), digitChar n]

/-- Four-digit rendering, as in `%Y` for years 1000..9999. -/
def pad4 (n : Nat) : List Char :=
  [digitChar (n / 1000), digitChar (n / 100), digitChar (n / 10), digitChar n]

/-- Model of `datetime.strftime("%Y%m%d_%H%M%S")`. -/
def fmtTimestamp (t : DateTime) : String :=
  String.mk (pad4 t.year ++ pad2 t.month ++ pad2 t.day ++ ['_'] ++
    pad2 t.hour ++ pad2 t.minute ++ pad2 t.second)

/-- Round to the nearest integer, ties to even, as Python `round` does. -/
def roundHalfEven (q : ℚ) : ℤ :=
  let f := ⌊q⌋
  let r := q - (f : ℚ)
  if r < 1 / 2 then f
  else if (1 : ℚ) / 2 < r then f + 1
  else if 2 ∣ f then f else f + 1

/-- Model of Python `round(q, 2)`. -/
def pyRound2 (q : ℚ) : ℚ :=
  ((roundHalfEven (q * 100) : ℤ) : ℚ) / 100

/-- Destination path `ECG_DIR / fn`, relative to `BASE_DIR`. -/
def ecgSavePath (fn : String) : String :=
  "uploads/ecg/" ++ fn

/-- The `file_info` object of a successful archival upload. -/
structure EcgFileInfo where
  filename : String
  path : String
  size_mb : ℚ
  deriving DecidableEq, Repr

/-- The 200 body of the archival endpoint. -/
structure EcgResponse where
  message : String
  file_info : EcgFileInfo
  deriving DecidableEq, Repr

/-- Result of one `upload_ecg` invocation. -/
structure EcgRun where
  outcome : Outcome EcgResponse
  fs : FS
  deriving DecidableEq, Repr

/-- Handler `POST /api/ecg/upload`. `copyFail = some (err, prefx)` injects a
failure of `shutil.copyfileobj` after the bytes `prefx` reached the disk;
`copyFail = none` lets the copy write the whole body. -/
def upload_ecg (file_id : String) (now : DateTime) (req : UploadRequest)
    (copyFail : Option (String × Bytes)) (fs : FS) : EcgRun :=
  match req.filename with
  | none => { outcome := .unhandled typeErrNone, fs := fs }
  | some name =>
    let file_ext := pyExt name
    if file_ext ∉ allowed_extensions then
      { outcome := .httpError 400 "Only PNG, JPG, JPEG, PDF allowed", fs := fs }
    else
      let timestamp := fmtTimestamp now
      let unique_filename := "ecg_" ++ timestamp ++ "_" ++ file_id ++ file_ext
      let save_path := ecgSavePath unique_filename
      match copyFail with
      | some (err, prefx) =>
        { outcome := .httpError 500 ("Upload Error: " ++ err),
          fs := fsWrite fs save_path prefx }
      | none =>
        let fs1 := fsWrite fs save_path req.content
        let st_size := ((List.lookup save_path fs1).getD []).length
        { outcome := .ok
            { message := "ECG uploaded successfully",
              file_info :=
                { filename := unique_filename,
                  path := "uploads/ecg/" ++ unique_filename,
                  size_mb := pyRound2 ((st_size : ℚ) / (1024 * 1024)) } },
          fs := fs1 }

/-- The `GET /health` response body. -/
structure HealthResponse where
  status : String
  timestamp : String
  xray_ai : String
  ecg_storage : String
  deriving DecidableEq, Repr

/-- Handler `GET /health`. -/
def health_check (svc : Option Gateway) (now : String) : HealthResponse :=
  { status := "healthy", timestamp := now,
    xray_ai := if svc.isSome then "active" else "inactive",
    ecg_storage := "active" }

/-- An absolute directory path, as a list of components. -/
abbrev DirPath := List String

/-- The set of existing directories, as a list of paths. -/
abbrev DirFS := List DirPath

/-- All nonempty prefixes of a path, shortest first. -/
def initsOf (p : DirPath) : List DirPath :=
  (List.range p.length).map (fun i => p.take (i + 1))

/-- Append each path of `l` that is not yet present. -/
def addMissing (fs : DirFS) (l : List DirPath) : DirFS :=
  l.foldl (fun acc q => if q ∈ acc then acc else acc ++ [q]) fs

/-- Model of `Path.mkdir(parents, exist_ok)`. -/
def mkdir (fs : DirFS) (p : DirPath) (parents exist_ok : Bool) : Except String DirFS :=
  if p ∈ fs then
    if exist_ok then .ok fs else .error "FileExistsError"
  else if parents then .ok (addMissing fs (initsOf p))
  else if p.dropLast = [] ∨ p.dropLast ∈ fs then .ok (fs ++ [p])
  else .error "FileNotFoundError"

/-- The module-level loop `for folder in [ECG_DIR, XRAY_TEMP_DIR]:
folder.mkdir(parents=True, exist_ok=True)` where `ECG_DIR` and
`XRAY_TEMP_DIR` live under `BASE_DIR = Path(__file__).parent`, the directory
holding the source file. -/
def ensureDirectories (baseDir : DirPath) (fs : DirFS) : Except String DirFS :=
  match mkdir fs (baseDir ++ ["uploads", "ecg"]) true true with
  | .error e => .error e
  | .ok fs1 => mkdir fs1 (baseDir ++ ["uploads", "xray_temp"]) true true

/-- The directory layout the spec sentence asserts, modelled from the
spec words: the staging and archival directories resolved relative to the
working directory of the process. -/
def claimedStartupDirs (cwd : DirPath) : List DirPath :=
  [cwd ++ ["uploads", "xray_temp"], cwd ++ ["uploads", "ecg"]]

/-- Did the handler convert the request into a structured response (a 200 or
an `HTTPException`), as opposed to letting an exception escape? -/
def handled {α : Type} : Outcome α → Bool
  | .unhandled _ => false
  | _ => true

/-! ### Helper lemmas -/

theorem lookup_fsWrite (fs : FS) (p : String) (d : Bytes) :
    List.lookup p (fsWrite fs p d) = some d := by
  simp [fsWrite, List.lookup]

theorem lookup_fsErase (fs : FS) (p : String) :
    List.lookup p (fsErase fs p) = none := by
  induction fs with
  | nil => rfl
  | cons e t ih =>
    obtain ⟨k, v⟩ := e
    by_cases h : k = p
    · subst h
      simpa [fsErase, List.filter_cons] using ih
    · have hk : (p == k) = false := beq_eq_false_iff_ne.mpr (Ne.symm h)
      have hk2 : (k != p) = true := bne_iff_ne.mpr h
      simpa [fsErase, List.filter_cons, hk2, List.lookup, hk] using ih

theorem fsExists_fsWrite (fs : FS) (p : String) (d : Bytes) :
    fsExists (fsWrite fs p d) p = true := by
  simp [fsExists, lookup_fsWrite]

theorem isDigit_digitChar (n : Nat) : (digitChar n).isDigit = true := by
  unfold digitChar
  have h : n % 10 < 10 := Nat.mod_lt _ (by norm_num)
  generalize n % 10 = m at h
  interval_cases m <;> decide

theorem fmtTimestamp_data (t : DateTime) :
    (fmtTimestamp t).data = pad4 t.year ++ pad2 t.month ++ pad2 t.day ++ ['_'] ++
      pad2 t.hour ++ pad2 t.minute ++ pad2 t.second := rfl

theorem fmtTimestamp_length (t : DateTime) :
    (fmtTimestamp t).data.length = 15 := by
  simp [fmtTimestamp_data, pad4, pad2]

theorem fmtTimestamp_digits (t : DateTime) :
    ((fmtTimestamp t).data.filter Char.isDigit).length = 14 := by
  simp [fmtTimestamp_data, pad4, pad2, List.filter, isDigit_digitChar]

theorem addMissing_cons (fs : DirFS) (a : DirPath) (t : List DirPath) :
    addMissing fs (a :: t) = addMissing (if a ∈ fs then fs else fs ++ [a]) t := rfl

theorem mem_addMissing_left (x : DirPath) (l : List DirPath) (fs : DirFS)
    (h : x ∈ fs) : x ∈ addMissing fs l := by
  induction l generalizing fs with
  | nil => exact h
  | cons a t ih =>
    rw [addMissing_cons]
    apply ih
    by_cases ha : a ∈ fs
    · simpa [ha] using h
    · simp only [if_neg ha]
      exact List.mem_append_left _ h

theorem mem_addMissing_of_mem (x : DirPath) (l : List DirPath) (fs : DirFS)
    (h : x ∈ l) : x ∈ addMissing fs l := by
  induction l generalizing fs with
  | nil => cases h
  | cons a t ih =>
    rw [addMissing_cons]
    rcases List.mem_cons.mp h with rfl | hx
    · apply mem_addMissing_left
      by_cases ha : x ∈ fs
      · simp [ha]
      · simp [ha]
    · exact ih _ hx

theorem self_mem_initsOf (p : DirPath) (h : p ≠ []) : p ∈ initsOf p := by
  unfold initsOf
  have hl : 0 < p.length := List.length_pos.mpr h
  refine List.mem_map.mpr ⟨p.length - 1, List.mem_range.mpr (by omega), ?_⟩
  rw [Nat.sub_add_cancel hl, List.take_length]

theorem mkdir_true_true (fs : DirFS) (p : DirPath) (hp : p ≠ []) :
    ∃ fs2, mkdir fs p true true = .ok fs2 ∧ p ∈ fs2 ∧ ∀ d ∈ fs, d ∈ fs2 := by
  unfold mkdir
  by_cases h : p ∈ fs
  · exact ⟨fs, by simp [h], h, fun d hd => hd⟩
  · refine ⟨addMissing fs (initsOf p), by simp [h], ?_, ?_⟩
    · exact mem_addMissing_of_mem _ _ _ (self_mem_initsOf p hp)
    · exact fun d hd => mem_addMissing_left _ _ _ hd

theorem mkdir_of_mem {fs : DirFS} {p : DirPath} (h : p ∈ fs) :
    mkdir fs p true true = .ok fs := by
  unfold mkdir
  simp [h]

/-! ### Claim theorems -/

/-- Claim C1: for every request to `/api/xray/analyze` that passes the
availability and content-type checks, the staged file written at
`{id}{lowercased extension}` in the staging directory is deleted before the
handler returns, on the success path and on every exception path; no staged
classification file outlives the request. -/
theorem analyze_xray_cleanup (g : Gateway) (fs : FS) (file_id name ct : String)
    (content : Bytes) (writeFail : Option (String × Bytes))
    (hct : pyStartswith "image/" ct = true) :
    List.lookup (xrayTempPath file_id (pyExt name))
      (analyze_xray (some g) file_id
        { filename := some name, content_type := some ct, content := content }
        writeFail fs).fs = none := by
  cases writeFail with
  | some ep =>
    obtain ⟨err, prefx⟩ := ep
    simp [analyze_xray, hct, fsExists_fsWrite, lookup_fsErase]
  | none =>
    cases hg : g content name with
    | ok r => simp [analyze_xray, hct, hg, fsExists_fsWrite, lookup_fsErase]
    | error e => simp [analyze_xray, hct, hg, fsExists_fsWrite, lookup_fsErase]

theorem analyze_xray_cleanup_witness :
    (pyStartswith "image/" "image/png" = true) ∧
    List.lookup (xrayTempPath "id0" (pyExt "chest.PNG"))
      (analyze_xray (some (fun _ _ => Except.ok { payload := "normal" })) "id0"
        { filename := some "chest.PNG", content_type := some "image/png",
          content := [1, 2, 3] }
        none []).fs = none :=
  ⟨by decide,
    analyze_xray_cleanup (fun _ _ => Except.ok { payload := "normal" }) []
      "id0" "chest.PNG" "image/png" [1, 2, 3] none (by decide)⟩

/-- Claim C4: for every request to `/api/xray/analyze` whose content-type does
not start with `image/` (the gateway being available), the handler returns a
400 error and no staging file is ever created. -/
theorem analyze_xray_bad_content_type (g : Gateway) (fs : FS)
    (file_id ct : String) (fn : Option String) (content : Bytes)
    (writeFail : Option (String × Bytes))
    (hct : pyStartswith "image/" ct = false) :
    (analyze_xray (some g) file_id
      { filename := fn, content_type := some ct, content := content }
      writeFail fs).outcome = Outcome.httpError 400 "Invalid file type" ∧
    (analyze_xray (some g) file_id
      { filename := fn, content_type := some ct, content := content }
      writeFail fs).fs = fs ∧
    (analyze_xray (some g) file_id
      { filename := fn, content_type := some ct, content := content }
      writeFail fs).staged = none := by
  refine ⟨?_, ?_, ?_⟩ <;> simp [analyze_xray, hct]

theorem analyze_xray_bad_content_type_witness :
    (pyStartswith "image/" "application/pdf" = false) ∧
    ((analyze_xray (some (fun _ _ => Except.ok { payload := "normal" })) "id0"
      { filename := some "doc.pdf", content_type := some "application/pdf",
        content := [9] }
      none []).outcome = Outcome.httpError 400 "Invalid file type" ∧
    (analyze_xray (some (fun _ _ => Except.ok { payload := "normal" })) "id0"
      { filename := some "doc.pdf", content_type := some "application/pdf",
        content := [9] }
      none []).fs = [] ∧
    (analyze_xray (some (fun _ _ => Except.ok { payload := "normal" })) "id0"
      { filename := some "doc.pdf", content_type := some "application/pdf",
        content := [9] }
      none []).staged = none) :=
  ⟨by decide,
    analyze_xray_bad_content_type (fun _ _ => Except.ok { payload := "normal" })
      [] "id0" "application/pdf" (some "doc.pdf") [9] none (by decide)⟩

/-- Claim C5: when the classification gateway failed to initialize, `/health`
reports `xray_ai` as `inactive`, and every request to `/api/xray/analyze`
returns 503 without performing any filesystem I/O, regardless of the input. -/
theorem gateway_unavailable_behavior (fs : FS) (file_id nowS : String)
    (req : UploadRequest) (writeFail : Option (String × Bytes)) :
    (health_check none nowS).xray_ai = "inactive" ∧
    (analyze_xray none file_id req writeFail fs).outcome
      = Outcome.httpError 503 "X-ray AI not initialized" ∧
    (analyze_xray none file_id req writeFail fs).fs = fs ∧
    (analyze_xray none file_id req writeFail fs).staged = none ∧
    (analyze_xray none file_id req writeFail fs).gatewayCall = none :=
  ⟨rfl, rfl, rfl, rfl, rfl⟩

/-- Claim C9: the gateway-availability check precedes content-type validation:
while the gateway is unavailable the response is 503 even when the
content-type is also not an image type, and the filesystem is untouched. -/
theorem availability_before_validation (fs : FS) (file_id ct : String)
    (fn : Option String) (content : Bytes) (writeFail : Option (String × Bytes))
    (hct : pyStartswith "image/" ct = false) :
    (analyze_xray none file_id
      { filename := fn, content_type := some ct, content := content }
      writeFail fs).outcome = Outcome.httpError 503 "X-ray AI not initialized" ∧
    (analyze_xray none file_id
      { filename := fn, content_type := some ct, content := content }
      writeFail fs).fs = fs :=
  ⟨rfl, rfl⟩

theorem availability_before_validation_witness :
    (pyStartswith "image/" "text/plain" = false) ∧
    ((analyze_xray none "id0"
      { filename := some "a.txt", content_type := some "text/plain",
        content := [1] }
      none []).outcome = Outcome.httpError 503 "X-ray AI not initialized" ∧
    (analyze_xray none "id0"
      { filename := some "a.txt", content_type := some "text/plain",
        content := [1] }
      none []).fs = []) :=
  ⟨by decide,
    availability_before_validation [] "id0" "text/plain" (some "a.txt") [1]
      none (by decide)⟩

/-- Claim C10: in the classification handler, the byte sequence written to the
staging file, the byte sequence passed to the gateway, and the full content of
the uploaded stream read from offset 0 are all equal, and the gateway receives
the original declared filename rather than the generated staging name. -/
theorem analyze_xray_dataflow (g : Gateway) (fs : FS) (file_id name ct : String)
    (content : Bytes) (hct : pyStartswith "image/" ct = true) :
    (analyze_xray (some g) file_id
      { filename := some name, content_type := some ct, content := content }
      none fs).staged = some (xrayTempPath file_id (pyExt name), content) ∧
    (analyze_xray (some g) file_id
      { filename := some name, content_type := some ct, content := content }
      none fs).gatewayCall = some (content, name) := by
  constructor <;> (cases hg : g content name <;> simp [analyze_xray, hct, hg])

theorem analyze_xray_dataflow_witness :
    (pyStartswith "image/" "image/jpeg" = true) ∧
    ((analyze_xray (some (fun _ _ => Except.error "model crash")) "id7"
      { filename := some "scan.JPG", content_type := some "image/jpeg",
        content := [4, 5] }
      none []).staged = some (xrayTempPath "id7" (pyExt "scan.JPG"), [4, 5]) ∧
    (analyze_xray (some (fun _ _ => Except.error "model crash")) "id7"
      { filename := some "scan.JPG", content_type := some "image/jpeg",
        content := [4, 5] }
      none []).gatewayCall = some ([4, 5], "scan.JPG")) :=
  ⟨by decide,
    analyze_xray_dataflow (fun _ _ => Except.error "model crash") [] "id7"
      "scan.JPG" "image/jpeg" [4, 5] (by decide)⟩

/-- Claim C2: for every successful request to `/api/ecg/upload`, the returned
filename matches `ecg_<14-digit timestamp>_<uuid><ext>` where the ext is the
lowercased extension of the original filename, the file exists at the returned
relative path `uploads/ecg/<filename>`, and `size_mb` equals the on-disk size
in MiB rounded to 2 decimal places. The `strftime` output has 15 characters of
which 14 are digits, in the shape `YYYYMMDD_HHMMSS`. -/
theorem upload_ecg_success (fs : FS) (file_id name : String) (ct : Option String)
    (content : Bytes) (now : DateTime)
    (hext : pyExt name ∈ allowed_extensions) (hdt : ValidDT now) :
    (upload_ecg file_id now
      { filename := some name, content_type := ct, content := content }
      none fs).outcome
      = Outcome.ok
          { message := "ECG uploaded successfully",
            file_info :=
              { filename := "ecg_" ++ fmtTimestamp now ++ "_" ++ file_id ++ pyExt name,
                path := "uploads/ecg/" ++
                  ("ecg_" ++ fmtTimestamp now ++ "_" ++ file_id ++ pyExt name),
                size_mb := pyRound2 ((content.length : ℚ) / (1024 * 1024)) } } ∧
    List.lookup
      ("uploads/ecg/" ++ ("ecg_" ++ fmtTimestamp now ++ "_" ++ file_id ++ pyExt name))
      (upload_ecg file_id now
        { filename := some name, content_type := ct, content := content }
        none fs).fs = some content ∧
    (fmtTimestamp now).data.length = 15 ∧
    ((fmtTimestamp now).data.filter Char.isDigit).length = 14 := by
  refine ⟨?_, ?_, fmtTimestamp_length now, fmtTimestamp_digits now⟩
  · simp [upload_ecg, hext, ecgSavePath, lookup_fsWrite]
  · simp [upload_ecg, hext, ecgSavePath, lookup_fsWrite]

theorem upload_ecg_success_witness :
    (pyExt "scan.PDF" ∈ allowed_extensions) ∧ ValidDT ⟨2026, 10, 12, 9, 5, 3⟩ ∧
    ((upload_ecg "id1" ⟨2026, 10, 12, 9, 5, 3⟩
      { filename := some "scan.PDF", content_type := some "application/pdf",
        content := [7, 7] }
      none []).outcome
      = Outcome.ok
          { message := "ECG uploaded successfully",
            file_info :=
              { filename := "ecg_" ++ fmtTimestamp ⟨2026, 10, 12, 9, 5, 3⟩ ++ "_" ++
                  "id1" ++ pyExt "scan.PDF",
                path := "uploads/ecg/" ++
                  ("ecg_" ++ fmtTimestamp ⟨2026, 10, 12, 9, 5, 3⟩ ++ "_" ++
                    "id1" ++ pyExt "scan.PDF"),
                size_mb := pyRound2 ((([7, 7] : Bytes).length : ℚ) / (1024 * 1024)) } } ∧
    List.lookup
      ("uploads/ecg/" ++ ("ecg_" ++ fmtTimestamp ⟨2026, 10, 12, 9, 5, 3⟩ ++ "_" ++
        "id1" ++ pyExt "scan.PDF"))
      (upload_ecg "id1" ⟨2026, 10, 12, 9, 5, 3⟩
        { filename := some "scan.PDF", content_type := some "application/pdf",
          content := [7, 7] }
        none []).fs = some [7, 7] ∧
    (fmtTimestamp ⟨2026, 10, 12, 9, 5, 3⟩).data.length = 15 ∧
    ((fmtTimestamp ⟨2026, 10, 12, 9, 5, 3⟩).data.filter Char.isDigit).length = 14) :=
  ⟨by decide, by decide,
    upload_ecg_success [] "id1" "scan.PDF" (some "application/pdf") [7, 7]
      ⟨2026, 10, 12, 9, 5, 3⟩ (by decide) (by decide)⟩

/-- Claim C6: for every request to `/api/ecg/upload` whose lowercased
extension is not in the allow-set, the handler returns a 400 error whose body
carries `Only PNG, JPG, JPEG, PDF allowed` and no file is written. -/
theorem upload_ecg_bad_extension (fs : FS) (file_id name : String)
    (ct : Option String) (content : Bytes) (copyFail : Option (String × Bytes))
    (now : DateTime) (hext : pyExt name ∉ allowed_extensions) :
    (upload_ecg file_id now
      { filename := some name, content_type := ct, content := content }
      copyFail fs).outcome
      = Outcome.httpError 400 "Only PNG, JPG, JPEG, PDF allowed" ∧
    (upload_ecg file_id now
      { filename := some name, content_type := ct, content := content }
      copyFail fs).fs = fs := by
  constructor <;> simp [upload_ecg, hext]

theorem upload_ecg_bad_extension_witness :
    (pyExt "report.docx" ∉ allowed_extensions) ∧
    ((upload_ecg "id2" ⟨2026, 10, 12, 9, 5, 3⟩
      { filename := some "report.docx", content_type := some "application/msword",
        content := [1, 2] }
      none []).outcome
      = Outcome.httpError 400 "Only PNG, JPG, JPEG, PDF allowed" ∧
    (upload_ecg "id2" ⟨2026, 10, 12, 9, 5, 3⟩
      { filename := some "report.docx", content_type := some "application/msword",
        content := [1, 2] }
      none []).fs = []) :=
  ⟨by decide,
    upload_ecg_bad_extension [] "id2" "report.docx" (some "application/msword")
      [1, 2] none ⟨2026, 10, 12, 9, 5, 3⟩ (by decide)⟩

/-- Claim C7: for every request to `/api/ecg/upload` whose copy to the
destination fails partway, the incomplete destination file is left in place
and the handler returns a 500 error carrying the underlying failure
message. -/
theorem upload_ecg_partial_copy (fs : FS) (file_id name err : String)
    (ct : Option String) (content prefx : Bytes) (now : DateTime)
    (hext : pyExt name ∈ allowed_extensions) :
    (upload_ecg file_id now
      { filename := some name, content_type := ct, content := content }
      (some (err, prefx)) fs).outcome
      = Outcome.httpError 500 ("Upload Error: " ++ err) ∧
    List.lookup
      (ecgSavePath ("ecg_" ++ fmtTimestamp now ++ "_" ++ file_id ++ pyExt name))
      (upload_ecg file_id now
        { filename := some name, content_type := ct, content := content }
        (some (err, prefx)) fs).fs = some prefx := by
  constructor <;> simp [upload_ecg, hext, lookup_fsWrite]

theorem upload_ecg_partial_copy_witness :
    (pyExt "beat.png" ∈ allowed_extensions) ∧
    ((upload_ecg "id3" ⟨2026, 10, 12, 9, 5, 3⟩
      { filename := some "beat.png", content_type := some "image/png",
        content := [1, 2, 3, 4] }
      (some ("No space left on device", [1, 2])) []).outcome
      = Outcome.httpError 500 ("Upload Error: " ++ "No space left on device") ∧
    List.lookup
      (ecgSavePath ("ecg_" ++ fmtTimestamp ⟨2026, 10, 12, 9, 5, 3⟩ ++ "_" ++
        "id3" ++ pyExt "beat.png"))
      (upload_ecg "id3" ⟨2026, 10, 12, 9, 5, 3⟩
        { filename := some "beat.png", content_type := some "image/png",
          content := [1, 2, 3, 4] }
        (some ("No space left on device", [1, 2])) []).fs = some [1, 2]) :=
  ⟨by decide,
    upload_ecg_partial_copy [] "id3" "beat.png" "No space left on device"
      (some "image/png") [1, 2, 3, 4] [1, 2] ⟨2026, 10, 12, 9, 5, 3⟩ (by decide)⟩

/-- Claim C3 counterexample: the claim asserts that no exception propagates as
an unhandled fault for every input, including requests with a missing
content-type or filename. At these concrete inputs the classification handler
evaluates `None.startswith` and the archival handler evaluates `Path(None)`;
both exceptions are raised before the `try` block and escape the handler
unhandled. -/
theorem handlers_unhandled_counterexample :
    (analyze_xray (some (fun _ _ => Except.ok { payload := "normal" })) "id0"
      { filename := some "a.png", content_type := none, content := [] }
      none []).outcome = Outcome.unhandled attrErrNone ∧
    (upload_ecg "id0" ⟨2026, 1, 2, 3, 4, 5⟩
      { filename := none, content_type := some "image/png", content := [] }
      none []).outcome = Outcome.unhandled typeErrNone :=
  ⟨rfl, rfl⟩

/-- Claim C3 amended: for every request to either upload endpoint that carries
both a declared content-type and a declared filename, any internal failure is
caught at the handler boundary and converted to a structured response (a 200
or an `HTTPException` with a status and a message); no exception propagates to
the transport layer. Requests missing the content-type or the filename are the
exception: they fault before the handlers reach their `try` blocks. -/
theorem handlers_structured_errors (svc : Option Gateway) (fsx fse : FS)
    (idx ide name1 name2 ct1 : String) (ct2 : Option String) (c1 c2 : Bytes)
    (writeFail copyFail : Option (String × Bytes)) (now : DateTime) :
    handled (analyze_xray svc idx
      { filename := some name1, content_type := some ct1, content := c1 }
      writeFail fsx).outcome = true ∧
    handled (upload_ecg ide now
      { filename := some name2, content_type := ct2, content := c2 }
      copyFail fse).outcome = true := by
  constructor
  · cases svc with
    | none => rfl
    | some g =>
      by_cases hct : pyStartswith "image/" ct1 = true
      · cases writeFail with
        | some ep =>
          obtain ⟨e, pr⟩ := ep
          simp [analyze_xray, hct, handled]
        | none =>
          cases hg : g c1 name1 <;> simp [analyze_xray, hct, hg, handled]
      · simp [analyze_xray, hct, handled]
  · by_cases hext : pyExt name2 ∈ allowed_extensions
    · cases copyFail with
      | some ep =>
        obtain ⟨e, pr⟩ := ep
        simp [upload_ecg, hext, handled]
      | none => simp [upload_ecg, hext, handled]
    · simp [upload_ecg, hext, handled]

/-- Claim C8 counterexample: the claim asserts that the staging and archival
directories are created relative to the working directory of the process. The
code creates them under `BASE_DIR = Path(__file__).parent`, the directory of
the source file. With the source file in `/app/backend` and the process
started from `/srv`, startup creates `/app/backend/uploads/...` and neither of
the working-directory-relative paths the claim names. -/
theorem startup_dirs_counterexample :
    ensureDirectories ["app", "backend"] [] = Except.ok
      [["app"], ["app", "backend"], ["app", "backend", "uploads"],
        ["app", "backend", "uploads", "ecg"],
        ["app", "backend", "uploads", "xray_temp"]] ∧
    ∀ d ∈ claimedStartupDirs ["srv"],
      d ∉ [["app"], ["app", "backend"], ["app", "backend", "uploads"],
        ["app", "backend", "uploads", "ecg"],
        ["app", "backend", "uploads", "xray_temp"]] := by
  refine ⟨rfl, by decide⟩

/-- Claim C8 amended: at process startup (module import, before any handler
runs), the staging directory `uploads/xray_temp` and the archival directory
`uploads/ecg` are created with their parents relative to the directory that
contains the service source file (`Path(__file__).parent`), not the process
working directory; the creation never raises, preserves whatever already
exists, and is idempotent. -/
theorem ensureDirectories_spec (baseDir : DirPath) (fs : DirFS) :
    ∃ fs2, ensureDirectories baseDir fs = .ok fs2 ∧
      baseDir ++ ["uploads", "ecg"] ∈ fs2 ∧
      baseDir ++ ["uploads", "xray_temp"] ∈ fs2 ∧
      (∀ d ∈ fs, d ∈ fs2) ∧
      ensureDirectories baseDir fs2 = .ok fs2 := by
  obtain ⟨fs1, h1, hp1, hsub1⟩ :=
    mkdir_true_true fs (baseDir ++ ["uploads", "ecg"]) (by simp)
  obtain ⟨fs2, h2, hp2, hsub2⟩ :=
    mkdir_true_true fs1 (baseDir ++ ["uploads", "xray_temp"]) (by simp)
  refine ⟨fs2, ?_, hsub2 _ hp1, hp2, fun d hd => hsub2 _ (hsub1 _ hd), ?_⟩
  · unfold ensureDirectories
    rw [h1]
    exact h2
  · unfold ensureDirectories
    rw [mkdir_of_mem (hsub2 _ hp1)]
    exact mkdir_of_mem hp2

end PulseX
